import Mathlib

/-!
Verification of the AtmoPredict hybrid data-routing and risk pipeline.

Shallow embedding of the Python sources `src/api.py`, `src/data_router.py`,
`src/climate_service.py` and `src/lstm_model_loader.py` over exact rational
arithmetic.  Python float arithmetic is modelled by `ℚ`, Python `round` by
round-half-to-even, Python `int()` by truncation toward zero, Python dicts
carrying weather values by structures with one field per key.
-/

namespace AtmoPredict

/-- Python `round(x)` on a float: nearest integer, ties to even (banker's rounding),
modelled exactly over the rationals. -/
def pyRound (x : ℚ) : ℤ :=
  let f : ℤ := ⌊x⌋
  let r : ℚ := x - f
  if r < 1/2 then f
  else if 1/2 < r then f + 1
  else if f % 2 = 0 then f else f + 1

/-- Python `int(x)`: truncation toward zero. -/
def pyInt (x : ℚ) : ℤ :=
  if 0 ≤ x then ⌊x⌋ else ⌈x⌉

/-- Python `round(x, 1)`: one decimal digit, ties to even. -/
def pyRound1 (x : ℚ) : ℚ :=
  (pyRound (x * 10) : ℚ) / 10

/-- WeatherValuesRecord: the weather dict passed between components
(`temperature`, `temp_min`, `temp_max`, `humidity`, `wind_speed`, `precipitation`,
`pressure`, `specific_humidity`, `radiation`, `data_source`). -/
structure WeatherRecord where
  temperature : ℚ
  temp_min : ℚ
  temp_max : ℚ
  humidity : ℚ
  wind_speed : ℚ
  precipitation : ℚ
  pressure : ℚ
  specific_humidity : ℚ
  radiation : ℚ
  data_source : String
deriving DecidableEq, Repr

/-- AnomalyOutput: the dict returned by `LSTMModelLoader.predict`. -/
structure AnomalyOutput where
  temperature_anomaly : ℚ
  precipitation_anomaly : ℚ
  base_temperature : ℚ
  base_precipitation : ℚ
deriving DecidableEq, Repr

/-- RiskProfile: the five extreme-condition probabilities returned by
`convert_to_extreme_weather_predictions` and `_generate_predictions_from_weather`. -/
structure RiskProfile where
  very_hot : ℚ
  very_cold : ℚ
  very_windy : ℚ
  very_wet : ℚ
  very_uncomfortable : ℚ
deriving DecidableEq, Repr

/-! ## lstm_model_loader.py -/

/-- `LSTMModelLoader.predict`: the two anomaly scalars come from the opaque frozen
network (parameters here); the base values are copied from the incoming weather
record (`weather_data.get('temperature', 20.0)`, `weather_data.get('precipitation', 0.0)`). -/
def lstm_predict_output (temp_anomaly precip_anomaly : ℚ) (w : WeatherRecord) : AnomalyOutput :=
  { temperature_anomaly := temp_anomaly
    precipitation_anomaly := precip_anomaly
    base_temperature := w.temperature
    base_precipitation := w.precipitation }

/-- Adjusted precipitation from `convert_to_extreme_weather_predictions`:
`adjusted_precip = base_precip * (1 + precip_anomaly)`. -/
def adjusted_precip (base_precip precip_anomaly : ℚ) : ℚ :=
  base_precip * (1 + precip_anomaly)

/-- Heat-index formula used in `convert_to_extreme_weather_predictions`,
`create_interaction_features` and `_generate_predictions_from_weather`:
`T + 0.5*(T + 61.0 + (T-68.0)*1.2 + RH*0.094)`. -/
def heat_index_formula (t rh : ℚ) : ℚ :=
  t + (1/2) * (t + 61 + (t - 68) * (6/5) + rh * (94/1000))

/-- `LSTMModelLoader._calculate_hot_probability`. -/
def _calculate_hot_probability (temp anomaly : ℚ) : ℚ :=
  let prob : ℚ := 0
  let prob := if 35 < temp then min 1 ((temp - 35) / 15) else prob
  let prob := if 3/10 < anomaly then prob + min (3/10) anomaly else prob
  min 1 (max 0 prob)

/-- `LSTMModelLoader._calculate_cold_probability`. -/
def _calculate_cold_probability (temp anomaly : ℚ) : ℚ :=
  let prob : ℚ := 0
  let prob := if temp < 5 then min 1 ((5 - temp) / 15) else prob
  let prob := if anomaly < -(3/10) then prob + min (3/10) |anomaly| else prob
  min 1 (max 0 prob)

/-- `LSTMModelLoader._calculate_windy_probability`. -/
def _calculate_windy_probability (wind_speed : ℚ) : ℚ :=
  if 20 < wind_speed then min 1 ((wind_speed - 20) / 30) else 0

/-- `LSTMModelLoader._calculate_wet_probability`: the base term fires only when
`precip > 50`; the anomaly bonus fires when `anomaly > 0.5`. -/
def _calculate_wet_probability (precip anomaly : ℚ) : ℚ :=
  let prob : ℚ := 0
  let prob := if 50 < precip then min 1 (precip / 200) else prob
  let prob := if 1/2 < anomaly then prob + min (2/5) (anomaly * (1/2)) else prob
  min 1 (max 0 prob)

/-- `LSTMModelLoader._calculate_discomfort_probability`. -/
def _calculate_discomfort_probability (heat_index temp humidity : ℚ) : ℚ :=
  let prob : ℚ := 0
  let prob := if 40 < heat_index then min 1 ((heat_index - 40) / 20) else prob
  let prob := if 30 < temp ∧ 70 < humidity then prob + 3/10 else prob
  min 1 (max 0 prob)

/-- `LSTMModelLoader.convert_to_extreme_weather_predictions`: blends the anomaly
output with the weather record's wind speed and humidity into the five
extreme-condition probabilities. -/
def convert_to_extreme_weather_predictions (out : AnomalyOutput) (wind_speed humidity : ℚ) :
    RiskProfile :=
  let adjusted_temp := out.base_temperature + out.temperature_anomaly * 10
  let adj_precip := adjusted_precip out.base_precipitation out.precipitation_anomaly
  let heat_index := heat_index_formula adjusted_temp humidity
  { very_hot := _calculate_hot_probability adjusted_temp out.temperature_anomaly
    very_cold := _calculate_cold_probability adjusted_temp out.temperature_anomaly
    very_windy := _calculate_windy_probability wind_speed
    very_wet := _calculate_wet_probability adj_precip out.precipitation_anomaly
    very_uncomfortable := _calculate_discomfort_probability heat_index adjusted_temp humidity }

/-! ## api.py : hybrid blending step (predict, lines 951-973) -/

/-- Hybrid blending step of `api.predict`: keep the baseline temperature as-is and
overwrite only the precipitation field with
`lstm_output['base_precipitation'] * (1 + lstm_output['precipitation_anomaly'])`. -/
def apply_hybrid_blend (w : WeatherRecord) (out : AnomalyOutput) : WeatherRecord :=
  { w with precipitation := out.base_precipitation * (1 + out.precipitation_anomaly) }

/-! ## api.py : assess_risk_level -/

/-- Risk levels returned by `assess_risk_level` (strings in the Python source). -/
inductive RiskLevel where
  | EXTREME
  | HIGH
  | MODERATE
  | LOW
  | MINIMAL
deriving DecidableEq, Repr

/-- Maximum of the five condition probabilities (`max(predictions.values())`). -/
def max_prob (p : RiskProfile) : ℚ :=
  max p.very_hot (max p.very_cold (max p.very_windy (max p.very_wet p.very_uncomfortable)))

/-- `assess_risk_level` from api.py: threshold ladder over the maximum of the five
probabilities with closed lower bounds. -/
def assess_risk_level (p : RiskProfile) : RiskLevel :=
  let m := max_prob p
  if 4/5 ≤ m then .EXTREME
  else if 3/5 ≤ m then .HIGH
  else if 2/5 ≤ m then .MODERATE
  else if 1/5 ≤ m then .LOW
  else .MINIMAL

/-- Dict-valued variant of `assess_risk_level`: Python's `max` raises `ValueError` on an
empty dict of probabilities (modelled by `none`); on a non-empty list of values it
returns the same ladder result. -/
def assess_risk_level_of_values (probs : List ℚ) : Option RiskLevel :=
  match probs.max? with
  | none => none
  | some m =>
    some (if 4/5 ≤ m then .EXTREME
      else if 3/5 ≤ m then .HIGH
      else if 2/5 ≤ m then .MODERATE
      else if 1/5 ≤ m then .LOW
      else .MINIMAL)

/-! ## Spec-side formulas for claim C1 (from the spec's wording, for comparison) -/

/-- Spec wording of the `very_wet` formula: an unconditional base term
`max(0, adjusted_precip/200)` plus the anomaly bonus, clamped to `[0,1]`. -/
def very_wet_spec (adj_precip anomaly : ℚ) : ℚ :=
  min 1 (max 0 (max 0 (adj_precip / 200) +
    (if 1/2 < anomaly then min (2/5) (anomaly * (1/2)) else 0)))

/-- Amended `very_wet` formula matching the code: the base term fires only when the
adjusted precipitation exceeds 50mm (and is `min(1, ·/200)`), else it is 0. -/
def very_wet_amended (adj_precip anomaly : ℚ) : ℚ :=
  min 1 (max 0 ((if 50 < adj_precip then min 1 (adj_precip / 200) else 0) +
    (if 1/2 < anomaly then min (2/5) (anomaly * (1/2)) else 0)))

/-! ## Theorems for claims C1, C2, C3 -/

/-- C1 (counterexample): at scenario D (base precipitation 10mm, precipitation
anomaly 0.6) the adjusted precipitation is 16mm, but the code's very_wet
probability is 0.30, not the 0.38 the claim's formula `max(0, adjusted_precip/200) + bonus`
yields: 16mm is below the 50mm threshold guarding the base term. -/
theorem C1_very_wet_counterexample :
    adjusted_precip 10 (3/5) = 16 ∧
    _calculate_wet_probability 16 (3/5) = 3/10 ∧
    very_wet_spec 16 (3/5) = 38/100 ∧
    _calculate_wet_probability 16 (3/5) ≠ 38/100 := by
  refine ⟨by norm_num [adjusted_precip], ?_, ?_, ?_⟩ <;>
    simp only [_calculate_wet_probability, very_wet_spec] <;> norm_num

/-- C1 (amended): the very_wet probability equals
`clamp₀₁((if adjusted_precip > 50 then min(1, adjusted_precip/200) else 0) + (if precip_anomaly > 0.5 then min(0.4, 0.5·precip_anomaly) else 0))`;
for scenario D (base 10mm, anomaly 0.6) the adjusted precipitation is 16mm and the
very_wet probability is 0.30. -/
theorem C1_very_wet_amended :
    (∀ p a : ℚ, _calculate_wet_probability p a = very_wet_amended p a) ∧
    adjusted_precip 10 (3/5) = 16 ∧
    _calculate_wet_probability 16 (3/5) = 3/10 := by
  refine ⟨fun p a => ?_, by norm_num [adjusted_precip], ?_⟩
  · simp only [_calculate_wet_probability, very_wet_amended]
    split_ifs <;> simp
  · simp only [_calculate_wet_probability]; norm_num

/-- C2: the hybrid blending step keeps the source temperature (the model's
temperature anomaly is never applied to that field), replaces precipitation with
`base_precip * (1 + precip_anomaly)` where the base is the record's own
precipitation, and leaves every other field of the weather record unchanged. -/
theorem C2_hybrid_blend_frame :
    ∀ (w : WeatherRecord) (ta pa : ℚ),
      let w' := apply_hybrid_blend w (lstm_predict_output ta pa w)
      w'.temperature = w.temperature ∧
      w'.precipitation = w.precipitation * (1 + pa) ∧
      w'.temp_min = w.temp_min ∧
      w'.temp_max = w.temp_max ∧
      w'.humidity = w.humidity ∧
      w'.wind_speed = w.wind_speed ∧
      w'.pressure = w.pressure ∧
      w'.specific_humidity = w.specific_humidity ∧
      w'.radiation = w.radiation ∧
      w'.data_source = w.data_source := by
  intro w ta pa
  simp [apply_hybrid_blend, lstm_predict_output]

/-- C3: the risk level is determined solely by the maximum probability with closed
lower bounds (≥0.8 EXTREME, ≥0.6 HIGH, ≥0.4 MODERATE, ≥0.2 LOW, else MINIMAL);
in particular a maximum of exactly 0.8 gives EXTREME and 0.79999 gives HIGH. -/
theorem C3_risk_level_ladder :
    (∀ p : RiskProfile,
      (assess_risk_level p = .EXTREME ↔ 4/5 ≤ max_prob p) ∧
      (assess_risk_level p = .HIGH ↔ 3/5 ≤ max_prob p ∧ max_prob p < 4/5) ∧
      (assess_risk_level p = .MODERATE ↔ 2/5 ≤ max_prob p ∧ max_prob p < 3/5) ∧
      (assess_risk_level p = .LOW ↔ 1/5 ≤ max_prob p ∧ max_prob p < 2/5) ∧
      (assess_risk_level p = .MINIMAL ↔ max_prob p < 1/5)) ∧
    assess_risk_level ⟨4/5, 4/5, 4/5, 4/5, 4/5⟩ = .EXTREME ∧
    assess_risk_level ⟨79999/100000, 79999/100000, 79999/100000, 79999/100000, 79999/100000⟩ =
      .HIGH := by
  refine ⟨fun p => ?_, by norm_num [assess_risk_level, max_prob],
    by norm_num [assess_risk_level, max_prob]⟩
  simp only [assess_risk_level]
  split_ifs with h1 h2 h3 h4 <;>
    refine ⟨?_, ?_, ?_, ?_, ?_⟩ <;>
      simp_all <;> first | linarith | (intro h; linarith)

/-! ## api.py + data_router.py : source routing -/

/-- Data-source classes tried by the routing logic. -/
inductive DataSource where
  | currentWeather
  | forecastAPI
  | patternSynthesis
  | historicalBaseline
deriving DecidableEq, Repr

/-- Fidelity ranking of the source classes: the live forecast provider is highest,
the long-range historical baseline outranks the live snapshot used as its last
resort, and pattern synthesis is the lowest-confidence synthetic path. -/
def fidelity : DataSource → ℕ
  | .forecastAPI => 4
  | .historicalBaseline => 3
  | .currentWeather => 2
  | .patternSynthesis => 1

/-- Sources tried, in order, by `api.predict` (lines 913-941) composed with
`DataRouter.get_prediction_data` and the last-resort fallback inside
`get_historical_baseline_from_api`, as a function of the lead time in days,
whether the data router initialized, whether the forecast provider returned a
sample, and whether the historical fetch succeeded. -/
def route_chain (days_ahead : ℤ) (router_ok api_ok baseline_ok : Bool) : List DataSource :=
  if days_ahead ≤ 0 then [.currentWeather]
  else if days_ahead ≤ 5 then
    if router_ok then
      if api_ok then [.forecastAPI] else [.forecastAPI, .patternSynthesis]
    else [.currentWeather]
  else
    if baseline_ok then [.historicalBaseline] else [.historicalBaseline, .currentWeather]

/-- Month-offset pattern index from `DataRouter.get_local_data_prediction`:
`months_ahead = (target.year - current.year) * 12 + target.month - current.month`
and `pattern_index = months_ahead % 6 + 1` (Python `%` on a positive modulus is
the Euclidean remainder, as is Lean's `Int.emod`). -/
def pattern_index (target_year target_month current_year current_month : ℤ) : ℤ :=
  ((target_year - current_year) * 12 + target_month - current_month) % 6 + 1

/-! ## api.py : baseline cache (get_historical_baseline_from_api) -/

/-- Cache key from `get_historical_baseline_from_api`: latitude and longitude rounded
to the nearest 0.5° via Python `round(x * 2) / 2` (kept here as the doubled rounded
integer), plus the target month. -/
def baseline_cache_key (lat lon : ℚ) (target_month : ℕ) : ℤ × ℤ × ℕ :=
  (pyRound (lat * 2), pyRound (lon * 2), target_month)

/-- Process-wide `_climate_baseline_cache`, modelled as an association list with the
newest entry first. -/
abbrev BaselineCache := List ((ℤ × ℤ × ℕ) × WeatherRecord)

/-- Dictionary lookup in the baseline cache. -/
def cache_lookup (c : BaselineCache) (k : ℤ × ℤ × ℕ) : Option WeatherRecord :=
  (c.find? (fun e => e.1 = k)).map (·.2)

/-- `get_historical_baseline_from_api`: on a cache hit return the stored record and
leave the cache untouched (the fetch never runs, so the result does not depend on
`fetched`); on a miss store and return the fetched record. `fetched` stands for the
record the NASA POWER monthly-average fetch would produce. -/
def get_historical_baseline (c : BaselineCache) (lat lon : ℚ) (target_month : ℕ)
    (fetched : WeatherRecord) : WeatherRecord × BaselineCache :=
  let k := baseline_cache_key lat lon target_month
  match cache_lookup c k with
  | some r => (r, c)
  | none => (fetched, (k, fetched) :: c)

/-- One later baseline request: coordinates, target month, and the record its NASA
fetch would return if it ran. -/
structure BaselineRequest where
  lat : ℚ
  lon : ℚ
  target_month : ℕ
  fetched : WeatherRecord

/-- State of the process-wide cache after serving a sequence of baseline requests. -/
def run_baseline_requests (c : BaselineCache) : List BaselineRequest → BaselineCache
  | [] => c
  | r :: rs =>
    run_baseline_requests (get_historical_baseline c r.lat r.lon r.target_month r.fetched).2 rs

theorem cache_lookup_cons (k' : ℤ × ℤ × ℕ) (v : WeatherRecord) (c : BaselineCache)
    (k : ℤ × ℤ × ℕ) :
    cache_lookup ((k', v) :: c) k = if k' = k then some v else cache_lookup c k := by
  simp only [cache_lookup, List.find?_cons]
  split_ifs with h <;> simp [h]

theorem get_historical_baseline_hit (c : BaselineCache) (lat lon : ℚ) (m : ℕ)
    (f r : WeatherRecord) (h : cache_lookup c (baseline_cache_key lat lon m) = some r) :
    get_historical_baseline c lat lon m f = (r, c) := by
  simp only [get_historical_baseline, h]

theorem get_historical_baseline_miss (c : BaselineCache) (lat lon : ℚ) (m : ℕ)
    (f : WeatherRecord) (h : cache_lookup c (baseline_cache_key lat lon m) = none) :
    get_historical_baseline c lat lon m f = (f, (baseline_cache_key lat lon m, f) :: c) := by
  simp only [get_historical_baseline, h]

theorem get_historical_baseline_preserves (c : BaselineCache) (lat lon : ℚ) (m : ℕ)
    (f : WeatherRecord) (k : ℤ × ℤ × ℕ) (r : WeatherRecord)
    (h : cache_lookup c k = some r) :
    cache_lookup (get_historical_baseline c lat lon m f).2 k = some r := by
  cases hl : cache_lookup c (baseline_cache_key lat lon m) with
  | some r' => rw [get_historical_baseline_hit c lat lon m f r' hl]; exact h
  | none =>
    rw [get_historical_baseline_miss c lat lon m f hl]
    rw [cache_lookup_cons]
    split_ifs with hk
    · rw [hk, h] at hl; cases hl
    · exact h

theorem run_baseline_requests_preserves (rs : List BaselineRequest) (c : BaselineCache)
    (k : ℤ × ℤ × ℕ) (r : WeatherRecord) (h : cache_lookup c k = some r) :
    cache_lookup (run_baseline_requests c rs) k = some r := by
  induction rs generalizing c with
  | nil => exact h
  | cons q qs ih =>
    exact ih _ (get_historical_baseline_preserves c q.lat q.lon q.target_month q.fetched k r h)

/-! ## Theorems for claims C4, C5 -/

/-- C4: the data source is a function of the lead time: lead ≤ 0 queries the
current-conditions provider; 1 ≤ lead ≤ 5 queries the short-range forecast provider
and falls through to pattern synthesis when it fails; lead > 5 enters the
long-range historical-baseline path; every fallback chain is strictly decreasing in
fidelity (no path retries a higher-fidelity source), and the pattern-synthesis
month offset equals `((target.month - current.month) mod 6) + 1`. -/
theorem C4_source_routing :
    ∀ (d : ℤ) (api_ok baseline_ok : Bool),
      (d ≤ 0 → route_chain d true api_ok baseline_ok = [.currentWeather]) ∧
      (1 ≤ d → d ≤ 5 → api_ok = true →
        route_chain d true api_ok baseline_ok = [.forecastAPI]) ∧
      (1 ≤ d → d ≤ 5 → api_ok = false →
        route_chain d true api_ok baseline_ok = [.forecastAPI, .patternSynthesis]) ∧
      (5 < d → baseline_ok = true →
        route_chain d true api_ok baseline_ok = [.historicalBaseline]) ∧
      (5 < d → baseline_ok = false →
        route_chain d true api_ok baseline_ok = [.historicalBaseline, .currentWeather]) ∧
      (route_chain d true api_ok baseline_ok).Chain' (fun a b => fidelity b < fidelity a) ∧
      (∀ ty tm cy cm : ℤ, pattern_index ty tm cy cm = (tm - cm) % 6 + 1) := by
  intro d api_ok baseline_ok
  refine ⟨?_, ?_, ?_, ?_, ?_, ?_, ?_⟩
  · intro h; simp [route_chain, h]
  · intro h1 h5 ha; subst ha
    simp only [route_chain]
    rw [if_neg (by omega), if_pos (by omega)]
    simp
  · intro h1 h5 ha; subst ha
    simp only [route_chain]
    rw [if_neg (by omega), if_pos (by omega)]
    simp
  · intro h5 hb; subst hb
    simp only [route_chain]
    rw [if_neg (by omega), if_neg (by omega)]
    simp
  · intro h5 hb; subst hb
    simp only [route_chain]
    rw [if_neg (by omega), if_neg (by omega)]
    simp
  · unfold route_chain
    split_ifs <;> simp [fidelity]
  · intro ty tm cy cm; unfold pattern_index; omega

/-- C5: the baseline cache is keyed by (rounded latitude, rounded longitude, target
month); once a record is stored under a key, every later request whose coordinates
and month produce the same key returns exactly the stored record with the cache
unchanged, independent of whatever a fresh fetch would have produced, and no
sequence of later requests ever evicts the entry. -/
theorem C5_baseline_cache :
    (∀ (c : BaselineCache) (lat lon lat' lon' : ℚ) (m : ℕ) (r f : WeatherRecord),
      baseline_cache_key lat' lon' m = baseline_cache_key lat lon m →
      cache_lookup c (baseline_cache_key lat lon m) = some r →
      get_historical_baseline c lat' lon' m f = (r, c)) ∧
    (∀ (c : BaselineCache) (lat lon : ℚ) (m : ℕ) (f f' : WeatherRecord),
      cache_lookup c (baseline_cache_key lat lon m) = none →
      (get_historical_baseline c lat lon m f).1 = f ∧
      get_historical_baseline (get_historical_baseline c lat lon m f).2 lat lon m f' =
        (f, (get_historical_baseline c lat lon m f).2)) ∧
    (∀ (c : BaselineCache) (k : ℤ × ℤ × ℕ) (r : WeatherRecord) (rs : List BaselineRequest),
      cache_lookup c k = some r →
      cache_lookup (run_baseline_requests c rs) k = some r) := by
  refine ⟨?_, ?_, ?_⟩
  · intro c lat lon lat' lon' m r f hkey hhit
    simp only [get_historical_baseline, hkey, hhit]
  · intro c lat lon m f f' hmiss
    have hstep := get_historical_baseline_miss c lat lon m f hmiss
    refine ⟨by rw [hstep], ?_⟩
    rw [hstep]
    have hhit : cache_lookup ((baseline_cache_key lat lon m, f) :: c)
        (baseline_cache_key lat lon m) = some f := by
      rw [cache_lookup_cons, if_pos rfl]
    exact get_historical_baseline_hit _ lat lon m f' f hhit
  · exact fun c k r rs h => run_baseline_requests_preserves rs c k r h

/-! ## climate_service.py : region resolution -/

/-- Bounding box from the configured region table
(`data/location_mapping.json`, key `coordinate_regions`): region name plus
`lat_range` and `lon_range` pairs. -/
structure BoundingBox where
  name : String
  lat_range : ℚ × ℚ
  lon_range : ℚ × ℚ
deriving DecidableEq, Repr

/-- Containment test from `ClimatePatternService.get_region_info`: closed intervals
on both axes, with each range normalized through min/max. -/
def box_contains (b : BoundingBox) (lat lon : ℚ) : Bool :=
  min b.lat_range.1 b.lat_range.2 ≤ lat ∧ lat ≤ max b.lat_range.1 b.lat_range.2 ∧
    min b.lon_range.1 b.lon_range.2 ≤ lon ∧ lon ≤ max b.lon_range.1 b.lon_range.2

/-- First-match lookup over the configured region table (the `for ... break` loop). -/
def primary_continent (table : List BoundingBox) (lat lon : ℚ) : Option String :=
  (table.find? (fun b => box_contains b lat lon)).map (·.name)

/-- Secondary heuristic table from `get_region_info`: seven continental zones tried
in source order (note the strict `lat < 15` upper bound on the south_america zone). -/
def fallback_continent (lat lon : ℚ) : Option String :=
  if -180 ≤ lon ∧ lon ≤ -30 ∧ 15 ≤ lat ∧ lat ≤ 85 then some "north_america"
  else if -85 ≤ lon ∧ lon ≤ -30 ∧ -55 ≤ lat ∧ lat < 15 then some "south_america"
  else if -25 ≤ lon ∧ lon ≤ 45 ∧ 35 ≤ lat ∧ lat ≤ 71 then some "europe"
  else if -20 ≤ lon ∧ lon ≤ 55 ∧ -35 ≤ lat ∧ lat ≤ 37 then some "africa"
  else if 73 ≤ lon ∧ lon ≤ 180 ∧ 8 ≤ lat ∧ lat ≤ 55 then some "asia"
  else if 113 ≤ lon ∧ lon ≤ 180 ∧ -45 ≤ lat ∧ lat ≤ -10 then some "australia"
  else if -90 ≤ lat ∧ lat ≤ -60 then some "antarctica"
  else none

/-- Result of `get_region_info`. -/
structure RegionInfo where
  continent : String
  hemisphere : String
deriving DecidableEq, Repr

/-- `ClimatePatternService.get_region_info`: hemisphere from the sign of the
latitude (`lat >= 0` is northern); continent from the configured table first
(first match wins), then the heuristic fallback table, else "unknown". -/
def get_region_info (table : List BoundingBox) (lat lon : ℚ) : RegionInfo :=
  let hemisphere := if 0 ≤ lat then "northern" else "southern"
  let c1 := (primary_continent table lat lon).getD "unknown"
  let continent := if c1 = "unknown" then (fallback_continent lat lon).getD "unknown" else c1
  ⟨continent, hemisphere⟩

theorem fallback_continent_ne_unknown (lat lon : ℚ) (n : String)
    (h : fallback_continent lat lon = some n) : n ≠ "unknown" := by
  unfold fallback_continent at h
  split_ifs at h <;> simp only [Option.some.injEq] at h <;> subst h <;> decide

/-! ## Theorem for claim C6 -/

/-- C6: region resolution is total; hemisphere is northern exactly when lat ≥ 0;
the configured table is tried first with first-match-wins semantics; and (whenever
the configured names do not use the reserved sentinel "unknown") the continent is
"unknown" exactly when no bounding box of the configured table contains the point
and no zone of the secondary heuristic table does either. -/
theorem C6_region_resolution :
    ∀ (table : List BoundingBox) (lat lon : ℚ),
      (∀ b ∈ table, b.name ≠ "unknown") →
      (((get_region_info table lat lon).hemisphere = "northern" ↔ 0 ≤ lat) ∧
       ((get_region_info table lat lon).hemisphere = "southern" ↔ lat < 0) ∧
       (∀ n, primary_continent table lat lon = some n →
         (get_region_info table lat lon).continent = n) ∧
       ((get_region_info table lat lon).continent = "unknown" ↔
         (∀ b ∈ table, box_contains b lat lon = false) ∧
           fallback_continent lat lon = none)) := by
  intro table lat lon hname
  have hem : (get_region_info table lat lon).hemisphere =
      if 0 ≤ lat then "northern" else "southern" := rfl
  have primary_name_ne : ∀ n, primary_continent table lat lon = some n → n ≠ "unknown" := by
    intro n hn
    unfold primary_continent at hn
    cases hf : table.find? (fun b => box_contains b lat lon) with
    | none => rw [hf] at hn; cases hn
    | some b =>
      rw [hf] at hn
      simp only [Option.map_some', Option.some.injEq] at hn
      subst hn
      exact hname b (List.mem_of_find?_eq_some hf)
  refine ⟨?_, ?_, ?_, ?_⟩
  · rw [hem]; split_ifs with h <;> simp [h]
  · rw [hem]; split_ifs with h <;> simp [h]; linarith
  · intro n hn
    have hne := primary_name_ne n hn
    simp only [get_region_info, hn, Option.getD_some, if_neg hne]
  · constructor
    · intro hu
      cases hp : primary_continent table lat lon with
      | some n =>
        have := primary_name_ne n hp
        simp only [get_region_info, hp, Option.getD_some, if_neg this] at hu
        exact absurd hu this
      | none =>
        have hfind : table.find? (fun b => box_contains b lat lon) = none := by
          unfold primary_continent at hp
          cases hf : table.find? (fun b => box_contains b lat lon) with
          | none => rfl
          | some b => rw [hf] at hp; cases hp
        refine ⟨?_, ?_⟩
        · intro b hb
          have := List.find?_eq_none.mp hfind b hb
          simpa using this
        · cases hfb : fallback_continent lat lon with
          | none => rfl
          | some n =>
            simp only [get_region_info, hp, Option.getD_none, if_pos rfl, hfb,
              Option.getD_some] at hu
            exact absurd hu (fallback_continent_ne_unknown lat lon n hfb)
    · rintro ⟨hboxes, hfb⟩
      have hfind : table.find? (fun b => box_contains b lat lon) = none := by
        rw [List.find?_eq_none]
        intro b hb
        simp [hboxes b hb]
      simp [get_region_info, primary_continent, hfind, hfb]

/-! ## data_router.py : pattern synthesis formatting -/

/-- Per-field statistics block of a seasonal pattern (`avg`, `min`, `max`). -/
structure StatBlock where
  avg : ℚ
  min : ℚ
  max : ℚ
deriving DecidableEq, Repr

/-- Seasonal pattern block for one continent and month offset
(`six_month_patterns["month_k"]` in a continent JSON document). -/
structure ContinentPattern where
  temperature : StatBlock
  humidity : StatBlock
  wind_speed : StatBlock
  precipitation : StatBlock
  extreme_weather_risk : List (String × ℚ)
deriving DecidableEq, Repr

/-- Seasonal pattern block for one hemisphere and month offset
(`global_temp` etc. in a hemisphere JSON document). -/
structure HemispherePattern where
  global_temp_avg : ℚ
  global_temp_range : ℚ × ℚ
  global_humidity_avg : ℚ
  global_wind_avg : ℚ
  global_precipitation_avg : ℚ
  extreme_weather_trends : List (String × ℚ)
deriving DecidableEq, Repr

/-- Prediction dict returned by the two `_format_prediction_*` methods. -/
structure PatternPrediction where
  temperature : ℚ
  temp_min : ℚ
  temp_max : ℚ
  humidity : ℤ
  wind_speed : ℚ
  precipitation : ℤ
  pressure : ℤ
  clouds : ℤ
  extreme_weather_risk : List (String × ℚ)
  data_source : String
  confidence : ℚ
deriving DecidableEq, Repr

/-- Python `round(x, 2)`. -/
def pyRound2 (x : ℚ) : ℚ :=
  (pyRound (x * 100) : ℚ) / 100

/-- `DataRouter._format_prediction_from_pattern`. The location perturbation
`variation = sin(lat*pi/180)*0.1 + cos(lon*pi/180)*0.1` is a parameter here: it
ranges over `[-0.2, 0.2]`, and the endpoint `-0.2` is attained exactly at
latitude -90, longitude 180. -/
def _format_prediction_from_pattern (pattern : ContinentPattern) (variation : ℚ)
    (source : String) : PatternPrediction :=
  { temperature := pyRound1 (pattern.temperature.avg + variation * 5)
    temp_min := pyRound1 (pattern.temperature.min + variation * 3)
    temp_max := pyRound1 (pattern.temperature.max + variation * 7)
    humidity := max 10 (min 95 (pyInt (pattern.humidity.avg + variation * 10)))
    wind_speed := max 1 (pyRound1 (pattern.wind_speed.avg + variation * 5))
    precipitation := max 0 (pyInt (pattern.precipitation.avg + variation * 20))
    pressure := 1013
    clouds := max 0 (min 100 (pyInt (60 + variation * 20)))
    extreme_weather_risk := pattern.extreme_weather_risk.map
      (fun kv => (kv.1, max 0 (min (1/10) (kv.2 / 10 + variation * (1/100)))))
    data_source := source
    confidence := pyRound2 (3/4 + |variation| * (15/100)) }

/-- `DataRouter._format_prediction_from_hemisphere`. Here
`variation = sin(lat*pi/180)*0.15 + cos(lon*pi/180)*0.15`, ranging over `[-0.3, 0.3]`. -/
def _format_prediction_from_hemisphere (pattern : HemispherePattern) (variation : ℚ)
    (source : String) : PatternPrediction :=
  { temperature := pyRound1 (pattern.global_temp_avg + variation * 8)
    temp_min := pyRound1 (pattern.global_temp_range.1 + variation * 5)
    temp_max := pyRound1 (pattern.global_temp_range.2 + variation * 10)
    humidity := max 10 (min 95 (pyInt (pattern.global_humidity_avg + variation * 12)))
    wind_speed := max 1 (pyRound1 (pattern.global_wind_avg + variation * 8))
    precipitation := max 0 (pyInt (pattern.global_precipitation_avg + variation * 30))
    pressure := 1013
    clouds := max 0 (min 100 (pyInt (50 + variation * 25)))
    extreme_weather_risk := pattern.extreme_weather_trends.map
      (fun kv => (kv.1, max 0 (min (1/10) (kv.2 / 10 + variation * (15/1000)))))
    data_source := source
    confidence := pyRound2 (13/20 + |variation| * (1/5)) }

theorem pyRound_intCast (n : ℤ) : pyRound (n : ℚ) = n := by
  norm_num [pyRound]

theorem pyRound1_tenth (x : ℚ) (n : ℤ) (h : x * 10 = (n : ℚ)) : pyRound1 x = x := by
  unfold pyRound1
  rw [h, pyRound_intCast, div_eq_iff (by norm_num : (10:ℚ) ≠ 0)]
  exact h.symm

/-! ## Theorems for claim C7 -/

/-- C7 (counterexample): the output temperature is not clamped. For the seasonal
pattern with temperature avg 20.2, min 20, max 20.7 and variation -0.2 (attained at
latitude -90, longitude 180), the continent-path output has temperature 19.2 but
temp_min 19.4 and temp_max 19.3, so the temperature is outside the returned
[temp_min, temp_max] bounds in either orientation. -/
theorem C7_temperature_counterexample :
    (_format_prediction_from_pattern
        ⟨⟨101/5, 20, 207/10⟩, ⟨65, 40, 85⟩, ⟨15, 5, 35⟩, ⟨100, 20, 300⟩, []⟩
        (-(1/5)) "src").temperature = 96/5 ∧
    (_format_prediction_from_pattern
        ⟨⟨101/5, 20, 207/10⟩, ⟨65, 40, 85⟩, ⟨15, 5, 35⟩, ⟨100, 20, 300⟩, []⟩
        (-(1/5)) "src").temp_min = 97/5 ∧
    (_format_prediction_from_pattern
        ⟨⟨101/5, 20, 207/10⟩, ⟨65, 40, 85⟩, ⟨15, 5, 35⟩, ⟨100, 20, 300⟩, []⟩
        (-(1/5)) "src").temp_max = 193/10 ∧
    ¬((97/5 : ℚ) ≤ 96/5 ∧ (96/5 : ℚ) ≤ 193/10) ∧
    ¬(min (97/5 : ℚ) (193/10) ≤ 96/5 ∧ (96/5 : ℚ) ≤ max (97/5) (193/10)) := by
  have e1 : (101/5 : ℚ) + (-(1/5)) * 5 = 96/5 := by norm_num
  have e2 : (20 : ℚ) + (-(1/5)) * 3 = 97/5 := by norm_num
  have e3 : (207/10 : ℚ) + (-(1/5)) * 7 = 193/10 := by norm_num
  have r1 : pyRound1 (96/5) = 96/5 := pyRound1_tenth _ 192 (by norm_num)
  have r2 : pyRound1 (97/5) = 97/5 := pyRound1_tenth _ 194 (by norm_num)
  have r3 : pyRound1 (193/10) = 193/10 := pyRound1_tenth _ 193 (by norm_num)
  refine ⟨?_, ?_, ?_, by norm_num, by rw [min_def, max_def]; norm_num⟩
  · show pyRound1 ((101/5 : ℚ) + (-(1/5)) * 5) = 96/5
    rw [e1, r1]
  · show pyRound1 ((20 : ℚ) + (-(1/5)) * 3) = 97/5
    rw [e2, r2]
  · show pyRound1 ((207/10 : ℚ) + (-(1/5)) * 7) = 193/10
    rw [e3, r3]

/-- C7 (amended): for every seasonal pattern and every variation value, both
formatting paths keep humidity in [10,95], clouds in [0,100], and precipitation and
wind speed non-negative (wind is in fact ≥ 1); the output temperature is not
clamped and can fall outside the returned [temp_min, temp_max] bounds. -/
theorem C7_clamp_bounds_amended :
    ∀ (pat : ContinentPattern) (hp : HemispherePattern) (v : ℚ) (s t : String),
      (10 ≤ (_format_prediction_from_pattern pat v s).humidity ∧
        (_format_prediction_from_pattern pat v s).humidity ≤ 95 ∧
        0 ≤ (_format_prediction_from_pattern pat v s).clouds ∧
        (_format_prediction_from_pattern pat v s).clouds ≤ 100 ∧
        0 ≤ (_format_prediction_from_pattern pat v s).precipitation ∧
        0 ≤ (_format_prediction_from_pattern pat v s).wind_speed) ∧
      (10 ≤ (_format_prediction_from_hemisphere hp v t).humidity ∧
        (_format_prediction_from_hemisphere hp v t).humidity ≤ 95 ∧
        0 ≤ (_format_prediction_from_hemisphere hp v t).clouds ∧
        (_format_prediction_from_hemisphere hp v t).clouds ≤ 100 ∧
        0 ≤ (_format_prediction_from_hemisphere hp v t).precipitation ∧
        0 ≤ (_format_prediction_from_hemisphere hp v t).wind_speed) := by
  intro pat hp v s t
  simp only [_format_prediction_from_pattern, _format_prediction_from_hemisphere]
  refine ⟨⟨?_, ?_, ?_, ?_, ?_, ?_⟩, ⟨?_, ?_, ?_, ?_, ?_, ?_⟩⟩ <;>
    first
      | omega
      | exact le_trans zero_le_one (le_max_left 1 _)

/-! ## api.py : heuristic fallback generator -/

/-- `api._generate_predictions_from_weather`: heuristic rules over raw weather
fields, each probability capped at 0.1. -/
def _generate_predictions_from_weather (temp humidity wind_speed precipitation : ℚ) :
    RiskProfile :=
  let heat_index := heat_index_formula temp humidity
  { very_hot := max 0 (min (1/10) ((temp - 35) / 50))
    very_cold := max 0 (min (1/10) ((5 - temp) / 50))
    very_windy := max 0 (min (1/10) ((wind_speed - 20) / 100))
    very_wet := max 0 (min (1/10) (precipitation / 500))
    very_uncomfortable := max 0 (min (1/10) (|heat_index - 25| / 200)) }

theorem clamp01_bounds (x : ℚ) : 0 ≤ min 1 (max 0 x) ∧ min 1 (max 0 x) ≤ 1 :=
  ⟨le_min zero_le_one (le_max_left 0 x), min_le_left 1 _⟩

theorem cap01_bounds (x : ℚ) : 0 ≤ max 0 (min (1/10) x) ∧ max 0 (min (1/10) x) ≤ 1/10 :=
  ⟨le_max_left 0 _, max_le (by norm_num) (min_le_left _ x)⟩

/-! ## Theorem for claim C8 -/

/-- C8: every probability produced for the five extreme-condition keys lies in
[0,1] on the model-backed path, and on the heuristic fallback paths (the heuristic
rule generator and the region-derived risk maps of both pattern formatters) every
per-condition probability additionally never exceeds 0.1. -/
theorem C8_probability_ranges :
    (∀ t a : ℚ, 0 ≤ _calculate_hot_probability t a ∧ _calculate_hot_probability t a ≤ 1) ∧
    (∀ t a : ℚ, 0 ≤ _calculate_cold_probability t a ∧ _calculate_cold_probability t a ≤ 1) ∧
    (∀ w : ℚ, 0 ≤ _calculate_windy_probability w ∧ _calculate_windy_probability w ≤ 1) ∧
    (∀ p a : ℚ, 0 ≤ _calculate_wet_probability p a ∧ _calculate_wet_probability p a ≤ 1) ∧
    (∀ hi t h : ℚ, 0 ≤ _calculate_discomfort_probability hi t h ∧
      _calculate_discomfort_probability hi t h ≤ 1) ∧
    (∀ t h w p : ℚ,
      (0 ≤ (_generate_predictions_from_weather t h w p).very_hot ∧
        (_generate_predictions_from_weather t h w p).very_hot ≤ 1/10) ∧
      (0 ≤ (_generate_predictions_from_weather t h w p).very_cold ∧
        (_generate_predictions_from_weather t h w p).very_cold ≤ 1/10) ∧
      (0 ≤ (_generate_predictions_from_weather t h w p).very_windy ∧
        (_generate_predictions_from_weather t h w p).very_windy ≤ 1/10) ∧
      (0 ≤ (_generate_predictions_from_weather t h w p).very_wet ∧
        (_generate_predictions_from_weather t h w p).very_wet ≤ 1/10) ∧
      (0 ≤ (_generate_predictions_from_weather t h w p).very_uncomfortable ∧
        (_generate_predictions_from_weather t h w p).very_uncomfortable ≤ 1/10)) ∧
    (∀ (pat : ContinentPattern) (v : ℚ) (s : String),
      ∀ kv ∈ (_format_prediction_from_pattern pat v s).extreme_weather_risk,
        0 ≤ kv.2 ∧ kv.2 ≤ 1/10) ∧
    (∀ (hp : HemispherePattern) (v : ℚ) (t : String),
      ∀ kv ∈ (_format_prediction_from_hemisphere hp v t).extreme_weather_risk,
        0 ≤ kv.2 ∧ kv.2 ≤ 1/10) := by
  refine ⟨?_, ?_, ?_, ?_, ?_, ?_, ?_, ?_⟩
  · intro t a
    simp only [_calculate_hot_probability]
    exact clamp01_bounds _
  · intro t a
    simp only [_calculate_cold_probability]
    exact clamp01_bounds _
  · intro w
    unfold _calculate_windy_probability
    split_ifs with h
    · exact ⟨le_min zero_le_one (div_nonneg (by linarith) (by norm_num)), min_le_left 1 _⟩
    · exact ⟨le_refl 0, zero_le_one⟩
  · intro p a
    simp only [_calculate_wet_probability]
    exact clamp01_bounds _
  · intro hi t h
    simp only [_calculate_discomfort_probability]
    exact clamp01_bounds _
  · intro t h w p
    simp only [_generate_predictions_from_weather]
    exact ⟨cap01_bounds _, cap01_bounds _, cap01_bounds _, cap01_bounds _, cap01_bounds _⟩
  · intro pat v s kv hkv
    simp only [_format_prediction_from_pattern, List.mem_map] at hkv
    obtain ⟨a, _, rfl⟩ := hkv
    exact cap01_bounds _
  · intro hp v t kv hkv
    simp only [_format_prediction_from_hemisphere, List.mem_map] at hkv
    obtain ⟨a, _, rfl⟩ := hkv
    exact cap01_bounds _

/-! ## api.py : rolling-window features -/

/-- Values of one weather column inside the rolling window of
`EnhancedFeatureBuilder.create_rolling_features`: the half-open date interval
`[target - window, target)` (`(df['date'] >= window_start) & (df['date'] < window_end)`);
dates are integer day numbers. -/
def rolling_window_data (df : List (ℤ × ℚ)) (target : ℤ) (window : ℕ) : List ℚ :=
  (df.filter (fun row => target - (window : ℤ) ≤ row.1 ∧ row.1 < target)).map Prod.snd

/-- Arithmetic mean of a list of values. -/
def list_mean (xs : List ℚ) : ℚ :=
  xs.sum / xs.length

/-- Sample variance with ddof = 1, the square of the pandas sample std (the square
root is irrational; squaring preserves the zero/NaN facts the claims concern). -/
def sample_variance (xs : List ℚ) : ℚ :=
  ((xs.map (fun x => (x - list_mean xs) ^ 2)).sum) / ((xs.length : ℚ) - 1)

/-- pandas `Series.std()` with ddof = 1: `none` models the NaN returned for fewer
than two observations. -/
def pandas_std_sq (xs : List ℚ) : Option ℚ :=
  if 2 ≤ xs.length then some (sample_variance xs) else none

/-- The four rolling statistics for one column and one window. -/
structure RollingStats where
  mean : ℚ
  std_sq : ℚ
  max : ℚ
  min : ℚ
deriving DecidableEq, Repr

/-- `create_rolling_features` for one column and one window: mean/std/max/min over
the half-open window; all zero when the window holds no observation; std forced to
0 (instead of pandas' NaN) when it holds fewer than two. -/
def create_rolling_features (df : List (ℤ × ℚ)) (target : ℤ) (window : ℕ) : RollingStats :=
  let data := rolling_window_data df target window
  if 0 < data.length then
    { mean := list_mean data
      std_sq := if 1 < data.length then sample_variance data else 0
      max := (data.max?).getD 0
      min := (data.min?).getD 0 }
  else ⟨0, 0, 0, 0⟩

/-! ## Theorem for claim C9 -/

/-- C9: the rolling features are computed over the half-open interval
`[target - window, target)` excluding the target day itself; when the window holds
no observation all four statistics are 0; when it holds exactly one observation the
std feature is 0 while the unguarded pandas std would be NaN. -/
theorem C9_rolling_features :
    ∀ (df : List (ℤ × ℚ)) (target : ℤ) (window : ℕ),
      (∀ v : ℚ, v ∈ rolling_window_data df target window ↔
        ∃ d : ℤ, (d, v) ∈ df ∧ target - (window : ℤ) ≤ d ∧ d < target) ∧
      (rolling_window_data df target window = [] →
        create_rolling_features df target window = ⟨0, 0, 0, 0⟩) ∧
      ((rolling_window_data df target window).length = 1 →
        (create_rolling_features df target window).std_sq = 0 ∧
        pandas_std_sq (rolling_window_data df target window) = none) := by
  intro df target window
  refine ⟨?_, ?_, ?_⟩
  · intro v
    simp only [rolling_window_data, List.mem_map, List.mem_filter, decide_eq_true_eq]
    constructor
    · rintro ⟨⟨d, v'⟩, ⟨hmem, h1, h2⟩, rfl⟩
      exact ⟨d, hmem, h1, h2⟩
    · rintro ⟨d, hmem, h1, h2⟩
      exact ⟨(d, v), ⟨hmem, h1, h2⟩, rfl⟩
  · intro h
    simp [create_rolling_features, h]
  · intro h
    refine ⟨?_, ?_⟩
    · simp [create_rolling_features, h]
    · simp [pandas_std_sq, h]

/-! ## Theorem for claim C10 -/

/-- C10: risk-level classification is total only for non-empty probability maps.
The fallback path takes the probability map verbatim from the record's
`extreme_weather_risk` field; `_format_prediction_from_pattern` reproduces a
seasonal pattern's empty stored risk map as an empty map, and `max` over the empty
dict raises (modelled by `none`) — while any non-empty map classifies fine — so
such a request errors instead of degrading. -/
theorem C10_empty_risk_map_raises :
    (_format_prediction_from_pattern
        ⟨⟨20, 10, 30⟩, ⟨65, 40, 85⟩, ⟨15, 5, 35⟩, ⟨100, 20, 300⟩, []⟩
        0 "src").extreme_weather_risk = [] ∧
    assess_risk_level_of_values
      (((_format_prediction_from_pattern
        ⟨⟨20, 10, 30⟩, ⟨65, 40, 85⟩, ⟨15, 5, 35⟩, ⟨100, 20, 300⟩, []⟩
        0 "src").extreme_weather_risk).map Prod.snd) = none ∧
    (∀ (q : ℚ) (qs : List ℚ), (assess_risk_level_of_values (q :: qs)).isSome = true) := by
  refine ⟨?_, ?_, ?_⟩
  · simp [_format_prediction_from_pattern]
  · simp [_format_prediction_from_pattern, assess_risk_level_of_values]
  · intro q qs
    unfold assess_risk_level_of_values
    cases hm : (q :: qs).max? with
    | none => exact absurd (List.max?_eq_none_iff.mp hm) (by simp)
    | some m => simp

/-! ## Witnesses -/

/-- Witness for C4: lead time 3 days with a failing forecast provider falls through
to pattern synthesis. -/
theorem C4_source_routing_witness :
    route_chain 3 true false true = [.forecastAPI, .patternSynthesis] :=
  (C4_source_routing 3 false true).2.2.1 (by norm_num) (by norm_num) rfl

/-- Witness for C5: a hit on a concrete singleton cache returns the stored record
and leaves the cache unchanged, ignoring the fresh fetch value. -/
theorem C5_baseline_cache_witness :
    get_historical_baseline
        [(baseline_cache_key 10 20 3, ⟨20, 15, 25, 60, 10, 5, 1013, 6, 200, "nasa"⟩)]
        10 20 3 ⟨0, 0, 0, 0, 0, 0, 0, 0, 0, "fresh"⟩ =
      (⟨20, 15, 25, 60, 10, 5, 1013, 6, 200, "nasa"⟩,
        [(baseline_cache_key 10 20 3, ⟨20, 15, 25, 60, 10, 5, 1013, 6, 200, "nasa"⟩)]) :=
  C5_baseline_cache.1 _ 10 20 10 20 3 _ _ rfl (by rw [cache_lookup_cons, if_pos rfl])

/-- Witness for C6: with a concrete one-box table, a point at latitude 5 resolves to
the northern hemisphere. -/
theorem C6_region_resolution_witness :
    (get_region_info [⟨"testbox", (0, 10), (0, 10)⟩] 5 5).hemisphere = "northern" :=
  (C6_region_resolution [⟨"testbox", (0, 10), (0, 10)⟩] 5 5
    (by intro b hb; simp at hb; subst hb; decide)).1.mpr (by norm_num)

/-- Witness for C8: a concrete region-derived risk entry stays within [0, 0.1]. -/
theorem C8_probability_ranges_witness :
    0 ≤ (("very_hot", max 0 (min ((1:ℚ)/10) ((1/2) / 10 + 0 * (1/100))))).2 ∧
      (("very_hot", max 0 (min ((1:ℚ)/10) ((1/2) / 10 + 0 * (1/100))))).2 ≤ 1/10 :=
  C8_probability_ranges.2.2.2.2.2.2.1
    ⟨⟨20, 10, 30⟩, ⟨65, 40, 85⟩, ⟨15, 5, 35⟩, ⟨100, 20, 300⟩, [("very_hot", 1/2)]⟩ 0 "s"
    _ (by simp [_format_prediction_from_pattern])

/-- Witness for C9: a window holding exactly the single observation (day 0, value 5)
yields a zero std feature where the unguarded pandas std would be NaN. -/
theorem C9_rolling_features_witness :
    (create_rolling_features [((0:ℤ), (5:ℚ))] 1 3).std_sq = 0 ∧
      pandas_std_sq (rolling_window_data [((0:ℤ), (5:ℚ))] 1 3) = none :=
  (C9_rolling_features [(0, 5)] 1 3).2.2 (by rfl)

end AtmoPredict
